import Mathlib

/-!
Shallow embedding of `src/app.py` (en-accent-classify)

This file embeds the pipeline core of `app.py` — the downloader
`download_video_with_yt_dlp`, the extractor `extract_audio`, the classifier
wrapper `classify_accent`, and the orchestrating part of `main` — as total
Lean functions over an explicit environment describing the behaviour of the
external world (the `yt-dlp` subprocess, the filesystem, moviepy, and the
speechbrain classifier).

Python exceptions are modelled with `Except PyExc`: the body of each Python
`try:` block is a `... → Except PyExc α` function, and the `except` clauses
are pattern matches on the `.error` constructors.  Streamlit calls
(`st.error`, `st.info`, ...) are modelled as emitted messages collected in a
list.  Durations and confidences are rationals.

One detail of the source is essential: `main` (line 135 of `app.py`) calls
a function named `extract__audio` (two underscores), while the module only
defines `extract_audio` (one underscore).  Under Python semantics the call
therefore raises `NameError` whenever it is reached, i.e. on every run whose
download step succeeds.  The embedding of `main` reflects this faithfully.
-/

/-- Messages emitted through the Streamlit API (`st.error`, `st.warning`,
`st.info`, `st.success`, `st.code`).  Only the message kind and its text
matter to the specification. -/
inductive UIMsg where
  | error (s : String)
  | warning (s : String)
  | info (s : String)
  | success (s : String)
  | code (s : String)
  deriving Repr, DecidableEq

/-- Python exceptions that can arise in the embedded fragment.
`calledProcessError` is `subprocess.CalledProcessError` (carrying the captured
standard error), `timeoutExpired` is `subprocess.TimeoutExpired`,
`nameError` is `NameError` for an undefined global name, and `exc` is a plain
`Exception` (or any other exception type, identified by its text).  All four
are subclasses of Python `Exception`, so a bare `except Exception` handler
catches every constructor. -/
inductive PyExc where
  | calledProcessError (stderr : String)
  | timeoutExpired (cmd : String) (seconds : Nat)
  | nameError (name : String)
  | exc (msg : String)
  deriving Repr, DecidableEq

/-- `str(e)` for the exceptions above, as interpolated by f-strings in the
handlers (quote characters of CPython renderings are elided; only the shape
of the text matters). -/
def PyExc.toStr : PyExc → String
  | .calledProcessError _ => "Command returned non-zero exit status."
  | .timeoutExpired cmd seconds =>
      "Command " ++ cmd ++ " timed out after " ++ toString seconds ++ " seconds"
  | .nameError n => "name " ++ n ++ " is not defined"
  | .exc m => m

/-- Helper for `pyIn`: does `n` occur as a contiguous run in the second list? -/
def charsContain (n : List Char) : List Char → Bool
  | [] => n.isEmpty
  | c :: cs => n.isPrefixOf (c :: cs) || charsContain n cs

/-- The Python substring test `needle in haystack`. -/
def pyIn (needle haystack : String) : Bool :=
  charsContain needle.toList haystack.toList

/-- Behaviour of one `subprocess.run(..., check=True, timeout=120)` call:
it returns normally (exit 0), raises `CalledProcessError` on a nonzero exit
(carrying the captured stderr), raises `TimeoutExpired` on timeout, or raises
some other exception (e.g. the executable is missing). -/
inductive SubprocBehavior where
  | ok
  | fails (stderr : String)
  | timesOut
  | raises (msg : String)
  deriving Repr, DecidableEq

/-- The timeout passed to `subprocess.run` in `download_video_with_yt_dlp`. -/
def ytDlpTimeoutSeconds : Nat := 120

/-- Embedding of the `subprocess.run` call of `download_video_with_yt_dlp`
(line 45–48): `check=True` turns a nonzero exit into `CalledProcessError`,
`timeout=120` turns a timeout into `TimeoutExpired`. -/
def subprocessRunYtDlp (b : SubprocBehavior) : Except PyExc Unit :=
  match b with
  | .ok => .ok ()
  | .fails stderr => .error (.calledProcessError stderr)
  | .timesOut => .error (.timeoutExpired "yt-dlp" ytDlpTimeoutSeconds)
  | .raises m => .error (.exc m)

/-- Environment of one call to `download_video_with_yt_dlp`: what the
subprocess does, and whether `temp_dir/video.mp4` exists on disk afterwards
(the `os.path.exists(filepath)` check of line 50). -/
structure DownloadEnv where
  subproc : SubprocBehavior
  outputExists : Bool
  deriving Repr, DecidableEq

/-- The fixed output filename chosen at line 33. -/
def videoFilename : String := "video.mp4"

/-- The `try:` block of `download_video_with_yt_dlp` (lines 31–52): run
`yt-dlp`, then raise `Exception("yt-dlp ran without error but did not
produce an output file.")` if the output file is absent, else return the
file path. -/
def downloadBody (temp_dir : String) (env : DownloadEnv) : Except PyExc String := do
  let filepath := temp_dir ++ "/" ++ videoFilename
  subprocessRunYtDlp env.subproc
  if !env.outputExists then
    Except.error (.exc "yt-dlp ran without error but did not produce an output file.")
  else
    Except.ok filepath

/-- The remediation hint shown when the tool diagnostics contain a 403 /
Forbidden signal (lines 58–61). -/
def forbiddenHint : String :=
  "**This is likely due to a block from the video service (e.g., YouTube).** The server running this app is often blocked. Please try a direct `.mp4` link for best results."

/-- The fallback info shown for other nonzero exits (line 63). -/
def otherDownloadInfo : String :=
  "The video may be private, deleted, or from an unsupported site."

/-- Result of one call to `download_video_with_yt_dlp`: the Streamlit
messages it emitted and its Python return value (`filepath` or `None`). -/
structure DownloadOutcome where
  messages : List UIMsg
  result : Option String
  deriving Repr, DecidableEq

/-- Embedding of `download_video_with_yt_dlp` (lines 27–69).  The result is
an `Except`: a `.error` value would mean an exception escaping the function.
The `except subprocess.CalledProcessError` clause (line 54) catches exactly
`calledProcessError`; the following `except Exception` clause (line 67)
catches every other constructor of `PyExc`, so the function never returns
`.error`. -/
def download_video_with_yt_dlp (url temp_dir : String) (env : DownloadEnv) :
    Except PyExc DownloadOutcome :=
  match downloadBody temp_dir env with
  | .ok filepath => .ok ⟨[], some filepath⟩
  | .error (.calledProcessError stderr) =>
      let hint : UIMsg :=
        if pyIn "403" stderr || pyIn "Forbidden" stderr then
          .warning forbiddenHint
        else
          .info otherDownloadInfo
      .ok ⟨[.error "Video Download Failed.", hint, .code stderr], none⟩
  | .error e =>
      .ok ⟨[.error ("An unexpected error occurred during download: " ++ e.toStr)], none⟩

/-- A moviepy `VideoFileClip` that opened successfully: its probed duration
(`clip.duration`) and whether it carries an audio track (`clip.audio` is not
`None`; for a subclip this is the same track). -/
structure VideoClip where
  duration : ℚ
  hasAudio : Bool
  deriving Repr, DecidableEq

/-- Behaviour of `VideoFileClip(video_path)` (line 79): the constructor
either yields a clip or raises (corrupt file, unreadable container — this is
where the duration probe lives and where it can fail). -/
inductive ClipOpen where
  | ok (clip : VideoClip)
  | raises (msg : String)
  deriving Repr, DecidableEq

/-- Environment of one call to `extract_audio`: how opening the video goes,
and whether `write_audiofile` raises (disk error, codec error, ...). -/
structure ExtractEnv where
  openResult : ClipOpen
  writeRaises : Option String
  deriving Repr, DecidableEq

/-- The audio file written by `write_audiofile` (lines 95–98), recording the
arguments the source passes: `fps=16000`, `nbytes=2`, `codec=pcm_s16le`,
`ffmpeg_params=["-ac", "1"]` (one channel), plus the duration of the audio
object being written. -/
structure AudioArtifact where
  path : String
  fps : ℕ
  nbytes : ℕ
  codec : String
  channels : ℕ
  durationSeconds : ℚ
  deriving Repr, DecidableEq

/-- The `st.info` message of line 82 (the f-string interpolates
`max_duration_sec`). -/
def truncationInfo (max_duration_sec : ℚ) : String :=
  "For efficiency, only the first " ++ toString max_duration_sec ++
    " seconds of audio will be analyzed."

/-- The `try:` block of `extract_audio` (lines 76–99): open the clip, pick
the full audio or the audio of `subclip(0, max_duration_sec)` depending on
`clip.duration > max_duration_sec`, raise if there is no audio track, then
write the 16 kHz mono 16-bit PCM file.  Returns the emitted messages and the
written artifact. -/
def extractBody (video_path audio_path : String) (max_duration_sec : ℚ)
    (env : ExtractEnv) : Except PyExc (List UIMsg × AudioArtifact) := do
  match env.openResult with
  | .raises m => Except.error (.exc m)
  | .ok clip =>
    let (msgs, audioDuration) :=
      if max_duration_sec < clip.duration then
        -- clip.duration > max_duration_sec: subclip(0, max) has duration max
        ([UIMsg.info (truncationInfo max_duration_sec)], max_duration_sec)
      else
        ([], clip.duration)
    if !clip.hasAudio then
      Except.error (.exc "The video file does not contain an audio track.")
    else
      match env.writeRaises with
      | some m => Except.error (.exc m)
      | none =>
          Except.ok (msgs,
            { path := audio_path, fps := 16000, nbytes := 2,
              codec := "pcm_s16le", channels := 1,
              durationSeconds := audioDuration })

/-- Result of one call to `extract_audio`: the Streamlit messages, the
Python return value (`True`/`False`), and the artifact written on success. -/
structure ExtractOutcome where
  messages : List UIMsg
  success : Bool
  artifact : Option AudioArtifact
  deriving Repr, DecidableEq

/-- Embedding of `extract_audio` (lines 72–102).  The single
`except Exception` clause (line 100) catches every constructor of `PyExc`,
emits `st.error` and returns `False`; so the function never returns
`.error`. -/
def extract_audio (video_path audio_path : String) (max_duration_sec : ℚ)
    (env : ExtractEnv) : Except PyExc ExtractOutcome :=
  match extractBody video_path audio_path max_duration_sec env with
  | .ok (msgs, art) => .ok ⟨msgs, true, some art⟩
  | .error e =>
      .ok ⟨[.error ("Audio Extraction Failed: " ++ e.toStr)], false, none⟩

/-- Behaviour of `classifier.classify_file(audio_path)`: the model returns a
label list and a maximal class posterior probability, or raises. -/
inductive ClassifierBehavior where
  | returns (labels : List String) (maxProb : ℚ)
  | raises (msg : String)
  deriving Repr, DecidableEq

/-- Python `round(x, 2)` on the confidence (tie-breaking simplified to
round-half-up; no claim depends on the tie case). -/
def round2 (x : ℚ) : ℚ := ((round (x * 100) : ℤ) : ℚ) / 100

/-- Embedding of `classify_accent` (lines 104–110): no `try:` block — the
function returns `(label[0], round(max_prob * 100, 2))` or lets any
exception propagate (including the `IndexError` of `label[0]` on an empty
list). -/
def classify_accent (audio_path : String) (classifier : ClassifierBehavior) :
    Except PyExc (String × ℚ) :=
  match classifier with
  | .raises m => Except.error (.exc m)
  | .returns [] _ => Except.error (.exc "IndexError: list index out of range")
  | .returns (l :: _) maxProb => Except.ok (l, round2 (maxProb * 100))

instance {ε α : Type} [DecidableEq ε] [DecidableEq α] :
    DecidableEq (Except ε α) := fun a b =>
  match a, b with
  | .ok x, .ok y =>
      if h : x = y then .isTrue (by rw [h])
      else .isFalse (by intro he; cases he; exact h rfl)
  | .error x, .error y =>
      if h : x = y then .isTrue (by rw [h])
      else .isFalse (by intro he; cases he; exact h rfl)
  | .ok _, .error _ => .isFalse (by intro he; cases he)
  | .error _, .ok _ => .isFalse (by intro he; cases he)

/-- `ANALYSIS_DURATION_SECONDS` (line 12). -/
def ANALYSIS_DURATION_SECONDS : ℚ := 30

/-- Environment of one pipeline run triggered by a submitted URL: the URL
and the behaviour of the external world at each stage. -/
structure RunEnv where
  url : String
  dl : DownloadEnv
  ex : ExtractEnv
  classifier : ClassifierBehavior
  deriving Repr, DecidableEq

/-- What happened inside the `with tempfile.TemporaryDirectory()` block of
`main` (lines 127–144): the messages emitted so far, how many times the
extraction helper `extract_audio` and the classifier were invoked, the
displayed `(accent, confidence)` result if any, and whether the block
finished normally or raised. -/
structure RunBodyResult where
  messages : List UIMsg
  extractCalls : ℕ
  classifierCalls : ℕ
  displayedResult : Option (String × ℚ)
  outcome : Except PyExc Unit
  deriving Repr, DecidableEq

/-- The body of the `with tempfile.TemporaryDirectory()` block (lines
128–144).  After a successful download, line 135 evaluates a call to the
name `extract__audio` (two underscores); the module defines no such global
(the helper of line 72 is `extract_audio`), so under Python semantics the
lookup raises `NameError` before the extraction helper — and hence the
classifier — can run. -/
def runBody (env : RunEnv) (tmpdir : String) : RunBodyResult :=
  let step1 : List UIMsg := [.info "Step 1: Attempting to download video..."]
  match download_video_with_yt_dlp env.url tmpdir env.dl with
  | .error e =>
      -- unreachable: `download_video_with_yt_dlp` catches all its exceptions
      ⟨step1, 0, 0, none, .error e⟩
  | .ok dlOut =>
    match dlOut.result with
    | none => ⟨step1 ++ dlOut.messages, 0, 0, none, .ok ()⟩
    | some _video_path =>
        ⟨step1 ++ dlOut.messages ++
           [.success "✅ Download complete!", .info "Step 2: Extracting audio..."],
         0, 0, none, .error (.nameError "extract__audio")⟩

/-- Result of one run: what the body did, and whether the scratch directory
was removed from disk by the time the run handed control back. -/
structure RunResult where
  body : RunBodyResult
  workspaceRemoved : Bool
  deriving Repr, DecidableEq

/-- Python `with tempfile.TemporaryDirectory() as tmpdir:` —
`TemporaryDirectory.__exit__` removes the directory on both normal and
exceptional exit of the block; a pending exception is re-raised only after
the removal. -/
def withTemporaryDirectory (body : String → RunBodyResult) : RunResult :=
  ⟨body "tmpdir", true⟩

/-- One pipeline run of `main` (lines 125–144) on a submitted URL, from the
creation of the scratch workspace to handing the outcome back. -/
def runPipeline (env : RunEnv) : RunResult :=
  withTemporaryDirectory (runBody env)

/-- C1: the claim says every run returns exactly one of ClassificationResult
or PipelineError and never propagates an uncaught exception.  The code
violates this: line 135 of `app.py` calls `extract__audio`, a name the
module never defines (the helper of line 72 is `extract_audio`), so every
run whose download succeeds raises an uncaught `NameError` and produces
neither a result nor an error message for the failure.  This theorem
evaluates the run at such an input. -/
theorem C1_successful_download_raises_uncaught_name_error :
    (runPipeline ⟨"https://example.com/v", ⟨.ok, true⟩,
        ⟨.ok ⟨10, true⟩, none⟩, .returns ["england"] (9/10)⟩).body.outcome
        = .error (.nameError "extract__audio")
    ∧ (runPipeline ⟨"https://example.com/v", ⟨.ok, true⟩,
        ⟨.ok ⟨10, true⟩, none⟩, .returns ["england"] (9/10)⟩).body.displayedResult
        = none := ⟨rfl, rfl⟩

/-- C3: for every run environment — success, any stage failure, or an
unexpected untyped exception raised inside the block (including the
`NameError` of line 135) — the scratch workspace is removed before the
outcome of the run reaches the caller, because `TemporaryDirectory.__exit__`
runs on both normal and exceptional exit of the `with` block. -/
theorem C3_workspace_always_removed (env : RunEnv) :
    (runPipeline env).workspaceRemoved = true := rfl

/-- C4 counterexample: the claim says a failed duration probe degrades
gracefully and extraction still produces an AudioArtifact.  In the code the
probe is `VideoFileClip(video_path)` / `clip.duration` inside the `try:`
block; if opening the container raises, the exception falls through to the
`except Exception` handler of line 100, which reports failure and returns
`False` — no artifact, no unbounded-duration fallback. -/
theorem C4_probe_failure_fails_extraction :
    extract_audio "video.mp4" "out.wav" 30
        ⟨.raises "failed to open container", none⟩ =
      .ok ⟨[.error "Audio Extraction Failed: failed to open container"],
           false, none⟩ := rfl

/-- C4 amended: if the video container cannot be opened to read the
duration, `extract_audio` catches the exception, emits the extraction
failure message and returns `False` with no artifact — the run fails
instead of proceeding with an unbounded duration. -/
theorem C4_amended_probe_failure_returns_false (video_path audio_path m : String)
    (max_duration_sec : ℚ) (wr : Option String) :
    extract_audio video_path audio_path max_duration_sec ⟨.raises m, wr⟩ =
      .ok ⟨[.error ("Audio Extraction Failed: " ++ m)], false, none⟩ := rfl

/-- C5 counterexample: the claim says a 120-second timeout is reported as a
`DownloadTimeout` tag distinct from `UnexpectedDownloadFailure`.  In the
code `subprocess.TimeoutExpired` is not caught by the
`except subprocess.CalledProcessError` clause but by the generic
`except Exception` clause of line 67, which produces exactly the same
output as any other unexpected exception with the same text: the two
environments below differ (a timeout versus a plain exception) yet the
observable result of the function is identical, so no distinct timeout tag
exists. -/
theorem C5_timeout_shares_generic_handler :
    download_video_with_yt_dlp "u" "tmp" ⟨.timesOut, true⟩ =
      download_video_with_yt_dlp "u" "tmp"
        ⟨.raises "Command yt-dlp timed out after 120 seconds", true⟩
    ∧ download_video_with_yt_dlp "u" "tmp" ⟨.timesOut, true⟩ =
      .ok ⟨[.error ("An unexpected error occurred during download: " ++
              "Command yt-dlp timed out after 120 seconds")], none⟩
    ∧ SubprocBehavior.timesOut ≠
        SubprocBehavior.raises "Command yt-dlp timed out after 120 seconds" :=
  ⟨rfl, rfl, by decide⟩

/-- C5 amended: a download timeout is caught by the generic
`except Exception` handler (the same branch as any other unexpected
failure, distinct only from the `CalledProcessError` branch), reported with
the unexpected-error message carrying the timeout text, and the download
returns `None`; the workspace of the surrounding run is still removed. -/
theorem C5_amended_timeout_generic_message (url tmp : String) (oe : Bool)
    (ex : ExtractEnv) (cls : ClassifierBehavior) :
    download_video_with_yt_dlp url tmp ⟨.timesOut, oe⟩ =
      .ok ⟨[.error ("An unexpected error occurred during download: " ++
              "Command yt-dlp timed out after 120 seconds")], none⟩
    ∧ (runPipeline ⟨url, ⟨.timesOut, oe⟩, ex, cls⟩).workspaceRemoved = true :=
  ⟨rfl, rfl⟩

/-- C9: if `yt-dlp` exits successfully but `temp_dir/video.mp4` does not
exist, line 51 raises a dedicated exception, the generic handler reports it
and the function returns `None` — tool success alone is never treated as
download success. -/
theorem C9_no_output_file_is_failure (url temp_dir : String) :
    download_video_with_yt_dlp url temp_dir ⟨.ok, false⟩ =
      .ok ⟨[.error ("An unexpected error occurred during download: " ++
              "yt-dlp ran without error but did not produce an output file.")],
           none⟩ := rfl

/-- C2: for a video whose probed duration exceeds `max_duration_sec` the
extraction writes an artifact of exactly the maximum duration (and emits the
truncation notice); for a video at or under the maximum no cap is applied
and the written duration equals the source duration. -/
theorem C2_truncation_decision (video_path audio_path : String)
    (max_duration_sec : ℚ) (clip : VideoClip)
    (hA : clip.hasAudio = true) :
    (max_duration_sec < clip.duration →
      extract_audio video_path audio_path max_duration_sec ⟨.ok clip, none⟩ =
        .ok ⟨[.info (truncationInfo max_duration_sec)], true,
             some ⟨audio_path, 16000, 2, "pcm_s16le", 1, max_duration_sec⟩⟩)
    ∧ (clip.duration ≤ max_duration_sec →
      extract_audio video_path audio_path max_duration_sec ⟨.ok clip, none⟩ =
        .ok ⟨[], true,
             some ⟨audio_path, 16000, 2, "pcm_s16le", 1, clip.duration⟩⟩) := by
  constructor
  · intro hlt
    simp [extract_audio, extractBody, hlt, hA]
  · intro hle
    simp [extract_audio, extractBody, not_lt.mpr hle, hA]

/-- C2 witness: a 45-second clip with audio is truncated to 30 seconds, a
10-second clip is written at its full 10 seconds. -/
theorem C2_truncation_decision_witness :
    (extract_audio "video.mp4" "out.wav" 30 ⟨.ok ⟨45, true⟩, none⟩ =
      .ok ⟨[.info (truncationInfo 30)], true,
           some ⟨"out.wav", 16000, 2, "pcm_s16le", 1, 30⟩⟩)
    ∧ (extract_audio "video.mp4" "out.wav" 30 ⟨.ok ⟨10, true⟩, none⟩ =
      .ok ⟨[], true, some ⟨"out.wav", 16000, 2, "pcm_s16le", 1, 10⟩⟩) :=
  ⟨(C2_truncation_decision "video.mp4" "out.wav" 30 ⟨45, true⟩ rfl).1
      (by norm_num),
   (C2_truncation_decision "video.mp4" "out.wav" 30 ⟨10, true⟩ rfl).2
      (by norm_num)⟩

/-- C8: every artifact produced by a successful extraction has sample rate
16000 Hz, one channel, 16-bit (`nbytes = 2`) signed PCM samples
(`pcm_s16le`), and duration at most `min` of the source duration and the
configured maximum — exactly the arguments of `write_audiofile`
(lines 95–98) and the truncation decision of lines 81–89. -/
theorem C8_artifact_format_contract (video_path audio_path : String)
    (max_duration_sec : ℚ) (clip : VideoClip) (wr : Option String)
    (out : ExtractOutcome) (art : AudioArtifact)
    (hrun : extract_audio video_path audio_path max_duration_sec
        ⟨.ok clip, wr⟩ = .ok out)
    (hart : out.artifact = some art) :
    art.fps = 16000 ∧ art.nbytes = 2 ∧ art.codec = "pcm_s16le"
    ∧ art.channels = 1
    ∧ art.durationSeconds ≤ min clip.duration max_duration_sec := by
  by_cases hlt : max_duration_sec < clip.duration
    <;> cases hA : clip.hasAudio
    <;> cases wr
    <;> simp [extract_audio, extractBody, hlt, hA] at hrun
    <;> subst hrun
    <;> simp at hart
    <;> subst hart
  · simp [min_def, le_of_lt hlt, not_le.mpr hlt]
  · simp [min_def, not_lt.mp hlt]

/-- C8 witness: the artifact written for a 45-second clip truncated at 30
seconds satisfies the format contract. -/
theorem C8_artifact_format_contract_witness :
    (⟨"out.wav", 16000, 2, "pcm_s16le", 1, (30:ℚ)⟩ : AudioArtifact).fps = 16000
    ∧ (⟨"out.wav", 16000, 2, "pcm_s16le", 1, (30:ℚ)⟩ : AudioArtifact).nbytes = 2
    ∧ (⟨"out.wav", 16000, 2, "pcm_s16le", 1, (30:ℚ)⟩ : AudioArtifact).codec =
        "pcm_s16le"
    ∧ (⟨"out.wav", 16000, 2, "pcm_s16le", 1, (30:ℚ)⟩ : AudioArtifact).channels = 1
    ∧ (⟨"out.wav", 16000, 2, "pcm_s16le", 1, (30:ℚ)⟩ :
        AudioArtifact).durationSeconds ≤ min (45:ℚ) 30 :=
  C8_artifact_format_contract "video.mp4" "out.wav" 30 ⟨45, true⟩ none
    ⟨[.info (truncationInfo 30)], true,
      some ⟨"out.wav", 16000, 2, "pcm_s16le", 1, 30⟩⟩
    ⟨"out.wav", 16000, 2, "pcm_s16le", 1, 30⟩
    (by norm_num [extract_audio, extractBody]) rfl

/-- C6 counterexample: the claim says the classifier is invoked exactly once
per run and its exceptions are wrapped as a ClassificationFailure.  On a run
whose download succeeds, the misspelt call of line 135 raises `NameError`
before the classifier is reached: the classifier is invoked zero times and
the escaping exception is the uncaught `NameError`, not a wrapped
classification failure. -/
theorem C6_classifier_not_invoked_counterexample :
    (runPipeline ⟨"https://example.com/clip", ⟨.ok, true⟩,
        ⟨.ok ⟨20, true⟩, none⟩, .raises "model failure"⟩).body.classifierCalls = 0
    ∧ (runPipeline ⟨"https://example.com/clip", ⟨.ok, true⟩,
        ⟨.ok ⟨20, true⟩, none⟩, .raises "model failure"⟩).body.outcome =
      .error (.nameError "extract__audio") := ⟨rfl, rfl⟩

/-- C6 amended: in the code as written the classifier is invoked zero times
on every run — the extraction call of the orchestrator names the undefined
`extract__audio` and raises `NameError` first whenever the download
succeeds, and on a failed download the run stops earlier — so no exception
of the classify call is ever wrapped. -/
theorem C6_amended_classifier_never_invoked (env : RunEnv) :
    (runPipeline env).body.classifierCalls = 0 := by
  rcases hdl : download_video_with_yt_dlp env.url "tmpdir" env.dl with e | ⟨msgs, r⟩
  · simp [runPipeline, withTemporaryDirectory, runBody, hdl]
  · rcases r with _ | p <;> simp [runPipeline, withTemporaryDirectory, runBody, hdl]

/-- C7: a nonzero `yt-dlp` exit whose stderr contains a "403" or "Forbidden"
signal is reported with the download-failure error, the service-blocking
remediation hint and the raw stderr, the function returns `None`, and the
run ends normally with the extraction helper never invoked. -/
theorem C7_forbidden_hint_and_no_extraction (stderr url temp_dir : String)
    (oe : Bool)
    (h : pyIn "403" stderr = true ∨ pyIn "Forbidden" stderr = true) :
    download_video_with_yt_dlp url temp_dir ⟨.fails stderr, oe⟩ =
      .ok ⟨[.error "Video Download Failed.", .warning forbiddenHint,
            .code stderr], none⟩
    ∧ ∀ (ex : ExtractEnv) (cls : ClassifierBehavior),
        (runPipeline ⟨url, ⟨.fails stderr, oe⟩, ex, cls⟩).body.extractCalls = 0
        ∧ (runPipeline ⟨url, ⟨.fails stderr, oe⟩, ex, cls⟩).body.outcome =
            .ok () := by
  have hdl : ∀ td : String, download_video_with_yt_dlp url td ⟨.fails stderr, oe⟩ =
      .ok ⟨[.error "Video Download Failed.", .warning forbiddenHint,
            .code stderr], none⟩ := by
    intro td
    have hbody : downloadBody td ⟨.fails stderr, oe⟩ =
        .error (.calledProcessError stderr) := rfl
    rcases h with h | h <;> simp [download_video_with_yt_dlp, hbody, h]
  refine ⟨hdl temp_dir, fun ex cls => ?_⟩
  constructor <;>
    simp [runPipeline, withTemporaryDirectory, runBody, hdl "tmpdir"]

/-- C7 witness: stderr "HTTP Error 403: Forbidden" triggers the Forbidden
reporting path. -/
theorem C7_forbidden_hint_and_no_extraction_witness :
    download_video_with_yt_dlp "https://example.com/v" "tmpdir"
        ⟨.fails "HTTP Error 403: Forbidden", true⟩ =
      .ok ⟨[.error "Video Download Failed.", .warning forbiddenHint,
            .code "HTTP Error 403: Forbidden"], none⟩
    ∧ ∀ (ex : ExtractEnv) (cls : ClassifierBehavior),
        (runPipeline ⟨"https://example.com/v",
            ⟨.fails "HTTP Error 403: Forbidden", true⟩, ex, cls⟩).body.extractCalls = 0
        ∧ (runPipeline ⟨"https://example.com/v",
            ⟨.fails "HTTP Error 403: Forbidden", true⟩, ex, cls⟩).body.outcome =
          .ok () :=
  C7_forbidden_hint_and_no_extraction "HTTP Error 403: Forbidden"
    "https://example.com/v" "tmpdir" true (Or.inl (by decide))

/-- C10: the two helpers are total at their call boundary — for every
environment `download_video_with_yt_dlp` returns a value (a path or `None`)
and `extract_audio` returns a value (`True` or `False`); neither ever ends
in `.error`, i.e. no exception escapes to the caller. -/
theorem C10_helpers_never_propagate (url temp_dir video_path audio_path : String)
    (max_duration_sec : ℚ) (de : DownloadEnv) (ee : ExtractEnv) :
    (∃ r, download_video_with_yt_dlp url temp_dir de = .ok r)
    ∧ (∃ s, extract_audio video_path audio_path max_duration_sec ee = .ok s) := by
  constructor
  · unfold download_video_with_yt_dlp
    rcases h : downloadBody temp_dir de with e | fp
    · cases e <;> simp
    · simp
  · unfold extract_audio
    rcases h : extractBody video_path audio_path max_duration_sec ee with e | pr
    · simp
    · simp
